import Mathlib

/-!
Verification of the geometry and scalar-math layer of `io`

Shallow embedding of `Rect<T>` (`src/src/Rect.h`), of `Math<T>` and the vector
specialisations `VectorBase<Derived, T, N>` (`src/io.h`), and of the resource cache
`Resources`, of which only the declarations exist (`src/io/resource/Resources.hpp`)
and whose operations follow the spec.

The element type `T` of the C++ templates is kept generic.  The comparisons of
`Rect<T>` (`contains`, `intersects`) are defined for every element type with a linear
order and an addition, which includes `Int32`, the 32-bit `int` whose sums wrap around.
Where a statement needs arithmetic laws it is over exact arithmetic: an arbitrary
linearly ordered commutative ring (covering `Rect<int>` on executions without signed
overflow, and the real numbers that `Rect<float>` approximates), and for
`Math<T>::round` an arbitrary linearly ordered field with a floor function.  Concrete
evaluations are carried out over `ℤ`, `ℚ` and `Int32`.
-/

namespace io

/-! ## Data model -/

/-- Modelled from the spec: the two-component value type `Vector<T>` declared in
`Core.h`, which is not part of the sources at hand.  `Rect.h` only uses its
two-argument constructor and its public members `x` and `y`. -/
structure Vector (T : Type) where
  x : T
  y : T
deriving DecidableEq

/-- Modelled from the spec: the pair type `Size<T>` declared in `Core.h` ("a
same-shaped pair type"), which is not part of the sources at hand.  `Rect.h` only
uses its two-argument constructor and its public members `w` and `h`. -/
structure Size (T : Type) where
  w : T
  h : T
deriving DecidableEq

/-- The class template `Rect<T>`: a position and a size. -/
structure Rect (T : Type) where
  pos : Vector T
  size : Size T
deriving DecidableEq

namespace Rect

variable {T : Type}

/-- The constructor `Rect(T x, T y, T w, T h) : pos(x, y), size(w, h)`. -/
def new (x y w h : T) : Rect T :=
  ⟨⟨x, y⟩, ⟨w, h⟩⟩

/-- The accessor `T x() const`, returning `pos.x`. -/
def x (r : Rect T) : T := r.pos.x

/-- The accessor `T y() const`, returning `pos.y`. -/
def y (r : Rect T) : T := r.pos.y

/-- The accessor `T w() const`, returning `size.w`. -/
def w (r : Rect T) : T := r.size.w

/-- The accessor `T h() const`, returning `size.h`. -/
def h (r : Rect T) : T := r.size.h

/-- The accessor `T left() const`, returning `x()`. -/
def left (r : Rect T) : T := r.x

/-- The accessor `T right() const`, returning `x() + w()`. -/
def right [Add T] (r : Rect T) : T := r.x + r.w

/-- The accessor `T top() const`, returning `y()`. -/
def top (r : Rect T) : T := r.y

/-- The accessor `T bottom() const`, returning `y() + h()`. -/
def bottom [Add T] (r : Rect T) : T := r.y + r.h

/-- The corner `top_left()`, the vector `(left(), top())`. -/
def top_left (r : Rect T) : Vector T := ⟨r.left, r.top⟩

/-- The corner `top_right()`, the vector `(right(), top())`. -/
def top_right [Add T] (r : Rect T) : Vector T := ⟨r.right, r.top⟩

/-- The corner `bottom_left()`, the vector `(left(), bottom())`. -/
def bottom_left [Add T] (r : Rect T) : Vector T := ⟨r.left, r.bottom⟩

/-- The corner `bottom_right()`, the vector `(right(), bottom())`. -/
def bottom_right [Add T] (r : Rect T) : Vector T := ⟨r.right, r.bottom⟩

section Comparisons

variable [LinearOrder T] [Add T]

/-- The overload `contains(T x, T y)`:
`!(x < left() || x > right() || y < top() || y > bottom())`. -/
def contains (r : Rect T) (x y : T) : Bool :=
  !(decide (x < r.left) || decide (x > r.right) || decide (y < r.top) || decide (y > r.bottom))

/-- The overload `contains(const Vector<T>& v)`, which is `contains(v.x, v.y)`. -/
def contains_vector (r : Rect T) (v : Vector T) : Bool :=
  r.contains v.x v.y

/-- The overload `contains(const Rect<T>& r)`:
`contains(r.left(), r.top()) && contains(r.right(), r.bottom())`. -/
def contains_rect (a r : Rect T) : Bool :=
  a.contains r.left r.top && a.contains r.right r.bottom

/-- The overload `intersects(T x0, T y0, T x1, T y1)`:
`!(x0 > right() || x1 < left() || y0 > bottom() || y1 < top())`. -/
def intersects (r : Rect T) (x0 y0 x1 y1 : T) : Bool :=
  !(decide (x0 > r.right) || decide (x1 < r.left) || decide (y0 > r.bottom) || decide (y1 < r.top))

/-- The overload `intersects(const Rect<T>& r)`, which is
`intersects(r.left(), r.top(), r.right(), r.bottom())`. -/
def intersects_rect (a r : Rect T) : Bool :=
  a.intersects r.left r.top r.right r.bottom

end Comparisons

variable [LinearOrderedCommRing T]

/-- The method `intersection(const Rect<T>& r)`.  The body declares a local that is
also called `r`; here that local is `r1`, and `r.left()`, `r.right()`, `r.top()`,
`r.bottom()` are the accessors of the argument rectangle.  The returned rectangle is
`Rect<T>(l, t, r1 - l, t - b)`, with the height written `t - b` as in the source. -/
def intersection (a r : Rect T) : Rect T :=
  let l := max a.left r.left
  let r1 := min a.right r.right
  let t := max a.top r.top
  let b := min a.bottom r.bottom
  Rect.new l t (r1 - l) (t - b)

end Rect

/-! ## The element type `int` of `Rect<int>` -/

/-- The value a 32-bit two's complement `int` holds for the arithmetic result `n`: `n`
reduced modulo `2^32` into the range from `-2^31` to `2^31 - 1`. -/
def wrap32 (n : ℤ) : ℤ :=
  (n + 2147483648) % 4294967296 - 2147483648

/-- The element type of `Rect2i = Rect<int>` on a build with a 32-bit two's complement
`int`: the integers from `-2^31` to `2^31 - 1`. -/
structure Int32 where
  val : ℤ
  lo : -2147483648 ≤ val
  hi : val < 2147483648

/-- The `int` that holds the arithmetic result `n`. -/
def Int32.ofInt (n : ℤ) : Int32 :=
  ⟨wrap32 n, by unfold wrap32; omega, by unfold wrap32; omega⟩

/-- The operator `+` on `int`.  A sum outside the range, which the C++ standard leaves
undefined, wraps around, as the two's complement addition of the machine does. -/
instance Int32.instAdd : Add Int32 :=
  ⟨fun a b => Int32.ofInt (a.val + b.val)⟩

/-- The comparisons `<`, `>`, `<=`, `>=` on `int`: those of the values held. -/
instance Int32.instLinearOrder : LinearOrder Int32 :=
  LinearOrder.lift' Int32.val (fun a b hab => by
    cases a
    cases b
    simp only [Int32.mk.injEq]
    exact hab)

/-! ## Scalar helpers: `Math<T>` -/

namespace Math

variable {T : Type}

/-- The constant `almost_zero`, which is `static_cast<T>(0.001)`: the default
tolerance of the comparisons below. -/
def almost_zero [DivisionRing T] : T := 1 / 1000

/-- The function `round`:
`value > 0.0 ? std::floor(value + static_cast<T>(0.5)) : std::ceil(value - static_cast<T>(0.5))`,
over exact arithmetic; the constant `0.5` is `1 / 2`. -/
def round [LinearOrderedField T] [FloorRing T] (value : T) : T :=
  if value > 0 then ((⌊value + 1 / 2⌋ : ℤ) : T) else ((⌈value - 1 / 2⌉ : ℤ) : T)

variable [LinearOrderedCommRing T]

/-- The function `is_zero`: `std::abs(value) <= epsilon`. -/
def is_zero (value epsilon : T) : Bool :=
  decide (|value| ≤ epsilon)

/-- The function `is_positive`: `value > epsilon`. -/
def is_positive (value epsilon : T) : Bool :=
  decide (value > epsilon)

/-- The function `is_negative`: `value < -epsilon`. -/
def is_negative (value epsilon : T) : Bool :=
  decide (value < -epsilon)

/-- The function `is_equal`: `std::abs(x1 - x2) < epsilon`. -/
def is_equal (x1 x2 epsilon : T) : Bool :=
  decide (|x1 - x2| < epsilon)

/-- The function `is_greater_than`: `x1 > (x2 + epsilon)`. -/
def is_greater_than (x1 x2 epsilon : T) : Bool :=
  decide (x1 > x2 + epsilon)

/-- The function `is_less_than`: `x1 < (x2 - epsilon)`. -/
def is_less_than (x1 x2 epsilon : T) : Bool :=
  decide (x1 < x2 - epsilon)

/-- The function `is_greater_than_or_equal`: `!is_less_than(x1, x2, epsilon)`. -/
def is_greater_than_or_equal (x1 x2 epsilon : T) : Bool :=
  !is_less_than x1 x2 epsilon

/-- The function `is_less_than_or_equal`: `!is_greater_than(x1, x2, epsilon)`. -/
def is_less_than_or_equal (x1 x2 epsilon : T) : Bool :=
  !is_greater_than x1 x2 epsilon

end Math

/-! ## Debug rendering of `Rect<int>` -/

/-- The operand `"," + top()` of `Rect::to_string`, for `T = int`: the sum of the
string literal `","` (the array of `','` and the terminating `'\0'`) and an integer
is a pointer into that array, and the stream prints the C string that starts there.
Offset `0` prints `","`, offset `1` points at the terminator and prints nothing; for
every other offset the read is outside the array, which is undefined behaviour and is
`none` here. -/
def comma_plus (offset : ℤ) : Option String :=
  if offset = 0 then some "," else if offset = 1 then some "" else none

/-- The method `to_string()` for `Rect<int>`:
`ss << "((" << left() << "," + top() << "),(" << right() << "," << bottom() << "))"`,
where `+` binds tighter than `<<`, so that `top()` is added to the literal `","` and
is not itself streamed.  Integers are streamed in decimal. -/
def Rect.to_string (r : Rect ℤ) : Option String :=
  match comma_plus r.top with
  | none => none
  | some sep =>
    some ("((" ++ toString r.left ++ sep ++ "),(" ++ toString r.right ++ ","
      ++ toString r.bottom ++ "))")

/-- The text that the spec gives for `to_string()`, written from the spec's words and
not from the source: `"((" + left + "," + top + "),(" + right + "," + bottom + "))"`
with the four edges in decimal. -/
def Rect.to_string_spec (r : Rect ℤ) : String :=
  "((" ++ toString r.left ++ "," ++ toString r.top ++ "),(" ++ toString r.right ++ ","
    ++ toString r.bottom ++ "))"

/-! ## Vectors: `VectorBase<Derived, T, N>` -/

/-- The specialisation `VectorBase<Derived, T, 2>`: the array `T values[2]`, built
by `VectorBase(T v0, T v1)`.  The derived class adds no data, so `Derived` is this
type. -/
structure VectorBase2 (T : Type) where
  v0 : T
  v1 : T
deriving DecidableEq

/-- The specialisation `VectorBase<Derived, T, 3>`: the array `T values[3]`, built
by `VectorBase(T v0, T v1, T v2)`. -/
structure VectorBase3 (T : Type) where
  v0 : T
  v1 : T
  v2 : T
deriving DecidableEq

/-- The specialisation `VectorBase<Derived, T, 4>`: the array `T values[4]`, built
by `VectorBase(T v0, T v1, T v2, T v3)`. -/
structure VectorBase4 (T : Type) where
  v0 : T
  v1 : T
  v2 : T
  v3 : T
deriving DecidableEq

namespace VectorBase2

variable {T : Type}

/-- The operator `==`: `values[0] == v.values[0] && values[1] == v.values[1]`. -/
def op_eq [DecidableEq T] (a v : VectorBase2 T) : Bool :=
  decide (a.v0 = v.v0) && decide (a.v1 = v.v1)

/-- The method `is_equal(v, epsilon)`:
`Math<T>::is_equal(values[0], v.values[0], epsilon) && Math<T>::is_equal(values[1], v.values[1], epsilon)`. -/
def is_equal [LinearOrderedCommRing T] (a v : VectorBase2 T) (epsilon : T) : Bool :=
  Math.is_equal a.v0 v.v0 epsilon && Math.is_equal a.v1 v.v1 epsilon

/-- The binary operator `+`, component-wise. -/
def op_add [Add T] (a b : VectorBase2 T) : VectorBase2 T :=
  ⟨a.v0 + b.v0, a.v1 + b.v1⟩

/-- The unary operator `-`, component-wise. -/
def op_neg [Neg T] (a : VectorBase2 T) : VectorBase2 T :=
  ⟨-a.v0, -a.v1⟩

/-- The operator `*` by a scalar: `values[i] * f`. -/
def op_mul [Mul T] (a : VectorBase2 T) (f : T) : VectorBase2 T :=
  ⟨a.v0 * f, a.v1 * f⟩

/-- The operator `/` by a scalar: `values[i] / f`. -/
def op_div [Div T] (a : VectorBase2 T) (f : T) : VectorBase2 T :=
  ⟨a.v0 / f, a.v1 / f⟩

end VectorBase2

namespace VectorBase3

variable {T : Type}

/-- The operator `==`: all three components are equal. -/
def op_eq [DecidableEq T] (a v : VectorBase3 T) : Bool :=
  decide (a.v0 = v.v0) && decide (a.v1 = v.v1) && decide (a.v2 = v.v2)

/-- The method `is_equal(v, epsilon)`, parenthesised as in the source:
`Math<T>::is_equal(values[0], v.values[0], epsilon) &&
 Math<T>::is_equal(values[1], v.values[1], epsilon && Math<T>::is_equal(values[2], v.values[2], epsilon))`.
The third argument of the second call is the `bool` value of
`epsilon && Math<T>::is_equal(...)`, where `epsilon` converts to `true` exactly when it
is non-zero, and that `bool` converts back to `T` as `1` or `0`. -/
def is_equal [LinearOrderedCommRing T] (a v : VectorBase3 T) (epsilon : T) : Bool :=
  Math.is_equal a.v0 v.v0 epsilon &&
    Math.is_equal a.v1 v.v1
      (if (decide (epsilon ≠ 0) && Math.is_equal a.v2 v.v2 epsilon) = true then 1 else 0)

/-- The binary operator `+`, component-wise. -/
def op_add [Add T] (a b : VectorBase3 T) : VectorBase3 T :=
  ⟨a.v0 + b.v0, a.v1 + b.v1, a.v2 + b.v2⟩

/-- The unary operator `-`, component-wise. -/
def op_neg [Neg T] (a : VectorBase3 T) : VectorBase3 T :=
  ⟨-a.v0, -a.v1, -a.v2⟩

/-- The operator `*` by a scalar: `values[i] * f`. -/
def op_mul [Mul T] (a : VectorBase3 T) (f : T) : VectorBase3 T :=
  ⟨a.v0 * f, a.v1 * f, a.v2 * f⟩

/-- The operator `/` by a scalar: `values[i] / f`. -/
def op_div [Div T] (a : VectorBase3 T) (f : T) : VectorBase3 T :=
  ⟨a.v0 / f, a.v1 / f, a.v2 / f⟩

end VectorBase3

namespace VectorBase4

variable {T : Type}

/-- The operator `==`: all four components are equal. -/
def op_eq [DecidableEq T] (a v : VectorBase4 T) : Bool :=
  decide (a.v0 = v.v0) && decide (a.v1 = v.v1) && decide (a.v2 = v.v2) &&
    decide (a.v3 = v.v3)

/-- The method `is_equal(v, epsilon)`, parenthesised as in the source:
`Math<T>::is_equal(values[0], v.values[0], epsilon) &&
 Math<T>::is_equal(values[1], v.values[1], epsilon && Math<T>::is_equal(values[2], v.values[2], epsilon)
   && Math<T>::is_equal(values[3], v.values[3], epsilon))`.
The third argument of the second call is a `bool` (with `epsilon` read as "non-zero")
converted back to `T` as `1` or `0`. -/
def is_equal [LinearOrderedCommRing T] (a v : VectorBase4 T) (epsilon : T) : Bool :=
  Math.is_equal a.v0 v.v0 epsilon &&
    Math.is_equal a.v1 v.v1
      (if (decide (epsilon ≠ 0) && Math.is_equal a.v2 v.v2 epsilon
            && Math.is_equal a.v3 v.v3 epsilon) = true then 1 else 0)

/-- The binary operator `+`, component-wise. -/
def op_add [Add T] (a b : VectorBase4 T) : VectorBase4 T :=
  ⟨a.v0 + b.v0, a.v1 + b.v1, a.v2 + b.v2, a.v3 + b.v3⟩

/-- The unary operator `-`, component-wise. -/
def op_neg [Neg T] (a : VectorBase4 T) : VectorBase4 T :=
  ⟨-a.v0, -a.v1, -a.v2, -a.v3⟩

/-- The operator `*` by a scalar: `values[i] * f`. -/
def op_mul [Mul T] (a : VectorBase4 T) (f : T) : VectorBase4 T :=
  ⟨a.v0 * f, a.v1 * f, a.v2 * f, a.v3 * f⟩

/-- The operator `/` by a scalar: `values[i] / f`. -/
def op_div [Div T] (a : VectorBase4 T) (f : T) : VectorBase4 T :=
  ⟨a.v0 / f, a.v1 / f, a.v2 / f, a.v3 / f⟩

end VectorBase4

/-! ## Resource cache: `Resources` -/

/-- Modelled from the spec: one call issued to the external loader collaborator
(`load_image(path)`, `load_font(path, size)`, `load_sound(path)`, `load_music(path)`).
The loader is not part of the sources at hand. -/
inductive LoadCall where
  | image (filename : String)
  | font (filename : String) (size : ℤ)
  | sound (filename : String)
  | music (filename : String)
deriving DecidableEq

/-- Modelled from the spec: the external loader collaborator, which is not part of the
sources at hand.  The first argument of each function is the number of loads issued
before the call, so that two loads of one file may yield different handles.  Loads
return a handle, as in the signatures of `Resources.hpp`; a load that fails ends the
call with an error and is outside this model. -/
structure Loader (Image Font Sound Music : Type) where
  load_image : ℕ → String → Image
  load_font : ℕ → String → ℤ → Font
  load_sound : ℕ → String → Sound
  load_music : ℕ → String → Music

/-- The class `Resources` of `Resources.hpp`: the four maps `images`, `fonts`,
`sounds` and `music`, each with a `std::string` key as the header declares them, as
association lists searched from the front.  The field `issued` is not in the class: it
records, oldest first, the calls made to the external loader. -/
structure Resources (Image Font Sound Music : Type) where
  images : List (String × Image)
  fonts : List (String × Font)
  sounds : List (String × Sound)
  music : List (String × Music)
  issued : List LoadCall

/-- Modelled from the spec: the lookup in one cache map ("at most one cache entry per
distinct key"), the entry found first for the key; the map code is not part of the
sources at hand. -/
def cache_find {K V : Type} [DecidableEq K] (key : K) : List (K × V) → Option V
  | [] => none
  | (k, v) :: rest => if k = key then some v else cache_find key rest

namespace Resources

variable {Image Font Sound Music : Type}

/-- Modelled from the spec: the body of `GetImage`, which is not part of the sources
at hand (only its declaration is): "look up by filename; on miss, delegate to an
external loader, insert the result keyed by filename, and return it; on hit, return
the cached handle directly". -/
def GetImage (L : Loader Image Font Sound Music) (r : Resources Image Font Sound Music)
    (filename : String) : Image × Resources Image Font Sound Music :=
  match cache_find filename r.images with
  | some handle => (handle, r)
  | none =>
    let handle := L.load_image r.issued.length filename
    (handle, ⟨(filename, handle) :: r.images, r.fonts, r.sounds, r.music,
      r.issued ++ [LoadCall.image filename]⟩)

/-- Modelled from the spec: the body of `GetSound`, which is not part of the sources
at hand; the same pattern as `GetImage`. -/
def GetSound (L : Loader Image Font Sound Music) (r : Resources Image Font Sound Music)
    (filename : String) : Sound × Resources Image Font Sound Music :=
  match cache_find filename r.sounds with
  | some handle => (handle, r)
  | none =>
    let handle := L.load_sound r.issued.length filename
    (handle, ⟨r.images, r.fonts, (filename, handle) :: r.sounds, r.music,
      r.issued ++ [LoadCall.sound filename]⟩)

/-- Modelled from the spec: the body of `GetMusic`, which is not part of the sources
at hand; the same pattern as `GetImage`. -/
def GetMusic (L : Loader Image Font Sound Music) (r : Resources Image Font Sound Music)
    (filename : String) : Music × Resources Image Font Sound Music :=
  match cache_find filename r.music with
  | some handle => (handle, r)
  | none =>
    let handle := L.load_music r.issued.length filename
    (handle, ⟨r.images, r.fonts, r.sounds, (filename, handle) :: r.music,
      r.issued ++ [LoadCall.music filename]⟩)

/-- Modelled from the spec: the body of `Unload`, which is not part of the sources at
hand: "clears all four caches unconditionally".  The record of issued loads stays. -/
def Unload (r : Resources Image Font Sound Music) : Resources Image Font Sound Music :=
  ⟨[], [], [], [], r.issued⟩

end Resources

/-! ## Rectangles: basic facts -/

namespace Rect

variable {T : Type} [LinearOrder T] [Add T]

/-- Point containment unfolded: the point lies in the closed box of the rectangle. -/
theorem contains_eq_true_iff (r : Rect T) (x y : T) :
    r.contains x y = true ↔ r.left ≤ x ∧ x ≤ r.right ∧ r.top ≤ y ∧ y ≤ r.bottom := by
  simp [contains, not_or, and_assoc]

/-- The interval test unfolded: no separating axis exists. -/
theorem intersects_eq_true_iff (r : Rect T) (x0 y0 x1 y1 : T) :
    r.intersects x0 y0 x1 y1 = true ↔
      x0 ≤ r.right ∧ r.left ≤ x1 ∧ y0 ≤ r.bottom ∧ r.top ≤ y1 := by
  simp [intersects, not_or, and_assoc]

end Rect

/-! ## Claims about `Rect<T>` -/

/-- C1 (the code departs from the claim): on every pair of rectangles the result of
`a.intersection(r)` has `left()` equal to the larger left, `top()` equal to the
larger top and `right()` equal to the smaller right, but its height is stored as
`t - b`, so that `bottom()` is `t + (t - b)` and not the smaller bottom `b`.  For
`Rect(0,0,10,10).intersection(Rect(5,5,10,10))`, two rectangles that intersect, the
result is `(5,5,5,-5)`: its height is `-5` where the claim says `5`, and its
`bottom()` is `0` where the smaller of the two bottoms is `10`. -/
theorem Rect.intersection_height_is_top_minus_bottom :
    (∀ (T : Type) [LinearOrderedCommRing T] (a r : Rect T),
      (a.intersection r).left = max a.left r.left ∧
      (a.intersection r).top = max a.top r.top ∧
      (a.intersection r).right = min a.right r.right ∧
      (a.intersection r).h = max a.top r.top - min a.bottom r.bottom ∧
      (a.intersection r).bottom
        = max a.top r.top + (max a.top r.top - min a.bottom r.bottom)) ∧
    (Rect.new (0 : ℤ) 0 10 10).intersects_rect (Rect.new 5 5 10 10) = true ∧
    (Rect.new (0 : ℤ) 0 10 10).intersection (Rect.new 5 5 10 10) = Rect.new 5 5 5 (-5) ∧
    ((Rect.new (0 : ℤ) 0 10 10).intersection (Rect.new 5 5 10 10)).bottom = 0 ∧
    min (Rect.new (0 : ℤ) 0 10 10).bottom (Rect.new (5 : ℤ) 5 10 10).bottom = 10 := by
  refine ⟨?_, by decide, by decide, by decide, by decide⟩
  intro T _ a r
  simp [Rect.intersection, Rect.new, Rect.left, Rect.top, Rect.right, Rect.bottom,
    Rect.x, Rect.y, Rect.w, Rect.h]

/-- C2: for rectangles `a` and `b` of non-negative width and height, `a.intersects(b)`
is true exactly when some point is contained in both; it is false exactly when `b`
lies entirely to the left of, to the right of, above or below `a`; and the
edge-touching pair `Rect(0,0,10,10)`, `Rect(10,0,5,5)` intersects. -/
theorem Rect.intersects_iff_common_point {T : Type} [LinearOrderedCommRing T] (a b : Rect T)
    (haw : 0 ≤ a.w) (hah : 0 ≤ a.h) (hbw : 0 ≤ b.w) (hbh : 0 ≤ b.h) :
    (a.intersects_rect b = true ↔
      ∃ x y : T, a.contains x y = true ∧ b.contains x y = true) ∧
    (a.intersects_rect b = false ↔
      b.right < a.left ∨ a.right < b.left ∨ b.bottom < a.top ∨ a.bottom < b.top) ∧
    (Rect.new (0 : ℤ) 0 10 10).intersects_rect (Rect.new 10 0 5 5) = true := by
  have har : a.left ≤ a.right := by simpa [Rect.left, Rect.right] using haw
  have hab : a.top ≤ a.bottom := by simpa [Rect.top, Rect.bottom] using hah
  have hbr : b.left ≤ b.right := by simpa [Rect.left, Rect.right] using hbw
  have hbb : b.top ≤ b.bottom := by simpa [Rect.top, Rect.bottom] using hbh
  refine ⟨?_, ?_, by decide⟩
  · rw [Rect.intersects_rect, Rect.intersects_eq_true_iff]
    constructor
    · rintro ⟨h1, h2, h3, h4⟩
      refine ⟨max a.left b.left, max a.top b.top, ?_, ?_⟩
      · rw [Rect.contains_eq_true_iff]
        exact ⟨le_max_left _ _, max_le har h1, le_max_left _ _, max_le hab h3⟩
      · rw [Rect.contains_eq_true_iff]
        exact ⟨le_max_right _ _, max_le h2 hbr, le_max_right _ _, max_le h4 hbb⟩
    · rintro ⟨x, y, hxa, hxb⟩
      rw [Rect.contains_eq_true_iff] at hxa hxb
      obtain ⟨a1, a2, a3, a4⟩ := hxa
      obtain ⟨b1, b2, b3, b4⟩ := hxb
      exact ⟨b1.trans a2, a1.trans b2, b3.trans a4, a3.trans b4⟩
  · rw [← Bool.not_eq_true, Rect.intersects_rect, Rect.intersects_eq_true_iff]
    simp only [not_and_or, not_le]
    tauto

/-- C2, at a concrete pair: `Rect(0,0,10,10)` and `Rect(10,0,5,5)` over the integers. -/
theorem Rect.intersects_iff_common_point_witness :
    (0 : ℤ) ≤ (Rect.new (0 : ℤ) 0 10 10).w ∧ (0 : ℤ) ≤ (Rect.new (0 : ℤ) 0 10 10).h ∧
    (0 : ℤ) ≤ (Rect.new (10 : ℤ) 0 5 5).w ∧ (0 : ℤ) ≤ (Rect.new (10 : ℤ) 0 5 5).h ∧
    (((Rect.new (0 : ℤ) 0 10 10).intersects_rect (Rect.new 10 0 5 5) = true ↔
      ∃ x y : ℤ, (Rect.new (0 : ℤ) 0 10 10).contains x y = true ∧
        (Rect.new (10 : ℤ) 0 5 5).contains x y = true) ∧
    ((Rect.new (0 : ℤ) 0 10 10).intersects_rect (Rect.new 10 0 5 5) = false ↔
      (Rect.new (10 : ℤ) 0 5 5).right < (Rect.new (0 : ℤ) 0 10 10).left ∨
      (Rect.new (0 : ℤ) 0 10 10).right < (Rect.new (10 : ℤ) 0 5 5).left ∨
      (Rect.new (10 : ℤ) 0 5 5).bottom < (Rect.new (0 : ℤ) 0 10 10).top ∨
      (Rect.new (0 : ℤ) 0 10 10).bottom < (Rect.new (10 : ℤ) 0 5 5).top) ∧
    (Rect.new (0 : ℤ) 0 10 10).intersects_rect (Rect.new 10 0 5 5) = true) :=
  ⟨by decide, by decide, by decide, by decide,
    Rect.intersects_iff_common_point (Rect.new (0 : ℤ) 0 10 10) (Rect.new 10 0 5 5)
      (by decide) (by decide) (by decide) (by decide)⟩

/-- C3: `r.contains(x, y)` is true exactly when `left() <= x <= right()` and
`top() <= y <= bottom()`, all four bounds inclusive; `Rect(0,0,10,10)` contains
`(10,10)` and does not contain `(11,5)`. -/
theorem Rect.contains_iff_closed_box :
    (∀ (T : Type) [LinearOrderedCommRing T] (r : Rect T) (x y : T),
      r.contains x y = true ↔
        (r.left ≤ x ∧ x ≤ r.right) ∧ (r.top ≤ y ∧ y ≤ r.bottom)) ∧
    (Rect.new (0 : ℤ) 0 10 10).contains 10 10 = true ∧
    (Rect.new (0 : ℤ) 0 10 10).contains 11 5 = false := by
  refine ⟨?_, by decide, by decide⟩
  intro T _ r x y
  rw [Rect.contains_eq_true_iff]
  tauto

/-- C4: for all rectangles `a` and `r`, of any sizes, the two-corner test
`a.contains(r)` is true exactly when `a` contains each of `r.top_left()`,
`r.top_right()`, `r.bottom_left()` and `r.bottom_right()`. -/
theorem Rect.contains_rect_iff_four_corners {T : Type} [LinearOrderedCommRing T]
    (a r : Rect T) :
    a.contains_rect r = true ↔
      a.contains_vector r.top_left = true ∧ a.contains_vector r.top_right = true ∧
      a.contains_vector r.bottom_left = true ∧ a.contains_vector r.bottom_right = true := by
  simp only [Rect.contains_rect, Rect.contains_vector, Rect.top_left, Rect.top_right,
    Rect.bottom_left, Rect.bottom_right, Bool.and_eq_true, Rect.contains_eq_true_iff]
  tauto

/-! ## Scalar helpers: basic facts -/

namespace Math

section Rounding

variable {T : Type} [LinearOrderedField T] [FloorRing T]

/-- On positive values `round` is the floor of the absolute value plus one half. -/
theorem round_of_pos (v : T) (hv : 0 < v) :
    round v = ((⌊|v| + 1 / 2⌋ : ℤ) : T) := by
  unfold round
  rw [if_pos hv, abs_of_pos hv]

/-- On non-positive values `round` is minus the floor of the absolute value plus one
half. -/
theorem round_of_nonpos (v : T) (hv : v ≤ 0) :
    round v = -((⌊|v| + 1 / 2⌋ : ℤ) : T) := by
  unfold round
  have hrw : v - 1 / 2 = -(-v + 1 / 2) := by ring
  rw [if_neg (not_lt.mpr hv), abs_of_nonpos hv, hrw, Int.ceil_neg, Int.cast_neg]

/-- The floor of one half is zero. -/
theorem floor_abs_zero_add_half : ⌊|(0 : T)| + 1 / 2⌋ = 0 := by
  rw [Int.floor_eq_iff]
  norm_num

/-- The value `round 0` is zero. -/
theorem round_zero : round (0 : T) = 0 := by
  rw [round_of_nonpos 0 le_rfl, floor_abs_zero_add_half]
  simp

end Rounding

section Comparisons

variable {T : Type} [LinearOrderedCommRing T]

/-- The strict "less" test reads `x1 - x2 < -eps`. -/
theorem is_less_than_iff (x1 x2 eps : T) :
    is_less_than x1 x2 eps = true ↔ x1 - x2 < -eps := by
  simp only [is_less_than, decide_eq_true_eq]
  constructor <;> intro h <;> linarith

/-- The strict "greater" test reads `eps < x1 - x2`. -/
theorem is_greater_than_iff (x1 x2 eps : T) :
    is_greater_than x1 x2 eps = true ↔ eps < x1 - x2 := by
  simp only [is_greater_than, decide_eq_true_eq]
  constructor <;> intro h <;> linarith

/-- The band test reads `-eps < x1 - x2 < eps`. -/
theorem is_equal_iff (x1 x2 eps : T) :
    is_equal x1 x2 eps = true ↔ -eps < x1 - x2 ∧ x1 - x2 < eps := by
  simp only [is_equal, decide_eq_true_eq, abs_lt]

end Comparisons

end Math

/-! ## Claims about `Math<T>` -/

/-- C5: over exact arithmetic `Math::round` rounds to the nearest integer with ties
away from zero.  For every value `v`, `round(v)` is an integer, `|round(v) - v| <= 1/2`,
`|round(v)| = floor(|v| + 1/2)`, `round(v)` carries the sign of `v` (it is
`floor(|v| + 1/2)` for `v >= 0` and `-floor(|v| + 1/2)` otherwise), and
`round(-v) = -round(v)`; moreover `round(2.5) = 3`, `round(-2.5) = -3` and
`round(2.4) = 2`. -/
theorem Math.round_half_away_from_zero :
    (∀ (T : Type) [LinearOrderedField T] [FloorRing T] (v : T),
      (∃ n : ℤ, Math.round v = (n : T)) ∧
      |Math.round v - v| ≤ 1 / 2 ∧
      |Math.round v| = ((⌊|v| + 1 / 2⌋ : ℤ) : T) ∧
      Math.round v
        = (if 0 ≤ v then ((⌊|v| + 1 / 2⌋ : ℤ) : T) else -((⌊|v| + 1 / 2⌋ : ℤ) : T)) ∧
      Math.round (-v) = -Math.round v) ∧
    Math.round (5 / 2 : ℚ) = 3 ∧ Math.round (-5 / 2 : ℚ) = -3 ∧
    Math.round (12 / 5 : ℚ) = 2 := by
  refine ⟨?_, ?_, ?_, ?_⟩
  · intro T _ _ v
    have hF1 : ((⌊|v| + 1 / 2⌋ : ℤ) : T) ≤ |v| + 1 / 2 := Int.floor_le _
    have hF2 : |v| + 1 / 2 < ((⌊|v| + 1 / 2⌋ : ℤ) : T) + 1 := Int.lt_floor_add_one _
    have hF0 : (0 : T) ≤ ((⌊|v| + 1 / 2⌋ : ℤ) : T) := by
      have h0 : (0 : ℤ) ≤ ⌊|v| + 1 / 2⌋ :=
        Int.floor_nonneg.mpr (add_nonneg (abs_nonneg v) (by norm_num))
      exact_mod_cast h0
    rcases lt_trichotomy v 0 with hneg | hzero | hpos
    · have hr := Math.round_of_nonpos v hneg.le
      have hr2 := Math.round_of_pos (-v) (neg_pos.mpr hneg)
      have habs : |v| = -v := abs_of_neg hneg
      rw [abs_neg] at hr2
      refine ⟨⟨-⌊|v| + 1 / 2⌋, by rw [hr, Int.cast_neg]⟩, ?_, ?_, ?_, ?_⟩
      · rw [hr, abs_le]
        constructor <;> linarith
      · rw [hr, abs_neg, abs_of_nonneg hF0]
      · rw [hr, if_neg (not_le.mpr hneg)]
      · rw [hr, hr2, neg_neg]
    · subst hzero
      have hz : Math.round (0 : T) = 0 := Math.round_zero
      have hf : ⌊|(0 : T)| + 1 / 2⌋ = 0 := Math.floor_abs_zero_add_half
      refine ⟨⟨0, by rw [hz, Int.cast_zero]⟩, ?_, ?_, ?_, ?_⟩
      · rw [hz]
        norm_num
      · rw [hz, hf]
        simp
      · rw [hz, hf]
        simp
      · rw [neg_zero, hz, neg_zero]
    · have hr := Math.round_of_pos v hpos
      have hr2 := Math.round_of_nonpos (-v) (neg_nonpos.mpr hpos.le)
      have habs : |v| = v := abs_of_pos hpos
      rw [abs_neg] at hr2
      refine ⟨⟨⌊|v| + 1 / 2⌋, hr⟩, ?_, ?_, ?_, ?_⟩
      · rw [hr, abs_le]
        constructor <;> linarith
      · rw [hr, abs_of_nonneg hF0]
      · rw [hr, if_pos hpos.le]
      · rw [hr, hr2]
  · have h1 : ⌊(5 / 2 : ℚ) + 1 / 2⌋ = 3 := by
      rw [Int.floor_eq_iff]
      norm_num
    unfold Math.round
    rw [if_pos (by norm_num), h1]
    norm_num
  · have h1 : ⌈(-5 / 2 : ℚ) - 1 / 2⌉ = -3 := by
      rw [Int.ceil_eq_iff]
      norm_num
    unfold Math.round
    rw [if_neg (by norm_num), h1]
    norm_num
  · have h1 : ⌊(12 / 5 : ℚ) + 1 / 2⌋ = 2 := by
      rw [Int.floor_eq_iff]
      norm_num
    unfold Math.round
    rw [if_pos (by norm_num), h1]
    norm_num

/-- C6 (as stated, refuted): the three tests need not single out exactly one case.
For `x1 = 1`, `x2 = 0`, `eps = 1` (the difference lies on the edge of the band) none
of `is_less_than`, `is_equal`, `is_greater_than` is true, and for `x1 = x2 = 0`,
`eps = -1` both `is_less_than` and `is_greater_than` are true. -/
theorem Math.trichotomy_fails_on_band_edge :
    (Math.is_less_than (1 : ℚ) 0 1 = false ∧ Math.is_equal (1 : ℚ) 0 1 = false ∧
      Math.is_greater_than (1 : ℚ) 0 1 = false) ∧
    (Math.is_less_than (0 : ℚ) 0 (-1) = true ∧ Math.is_greater_than (0 : ℚ) 0 (-1) = true) ∧
    ¬ (∀ x1 x2 eps : ℚ,
        (Math.is_less_than x1 x2 eps = true ∧ Math.is_equal x1 x2 eps = false ∧
          Math.is_greater_than x1 x2 eps = false) ∨
        (Math.is_less_than x1 x2 eps = false ∧ Math.is_equal x1 x2 eps = true ∧
          Math.is_greater_than x1 x2 eps = false) ∨
        (Math.is_less_than x1 x2 eps = false ∧ Math.is_equal x1 x2 eps = false ∧
          Math.is_greater_than x1 x2 eps = true)) := by
  have hl : Math.is_less_than (1 : ℚ) 0 1 = false := by norm_num [Math.is_less_than]
  have he : Math.is_equal (1 : ℚ) 0 1 = false := by norm_num [Math.is_equal]
  have hg : Math.is_greater_than (1 : ℚ) 0 1 = false := by norm_num [Math.is_greater_than]
  refine ⟨⟨hl, he, hg⟩, ⟨by norm_num [Math.is_less_than], by norm_num [Math.is_greater_than]⟩, ?_⟩
  intro hall
  rcases hall 1 0 1 with h | h | h
  · rw [hl] at h
    exact Bool.false_ne_true h.1
  · rw [he] at h
    exact Bool.false_ne_true h.2.1
  · rw [hg] at h
    exact Bool.false_ne_true h.2.2

/-- For a non-negative tolerance and a difference off the edge of the band, exactly one
of the three tests holds. -/
theorem Math.exactly_one_of_nonneg_off_edge {T : Type} [LinearOrderedCommRing T]
    (x1 x2 eps : T) (heps : 0 ≤ eps) (hedge : |x1 - x2| ≠ eps) :
    (Math.is_less_than x1 x2 eps = true ∧ Math.is_equal x1 x2 eps = false ∧
      Math.is_greater_than x1 x2 eps = false) ∨
    (Math.is_less_than x1 x2 eps = false ∧ Math.is_equal x1 x2 eps = true ∧
      Math.is_greater_than x1 x2 eps = false) ∨
    (Math.is_less_than x1 x2 eps = false ∧ Math.is_equal x1 x2 eps = false ∧
      Math.is_greater_than x1 x2 eps = true) := by
  simp only [← Bool.not_eq_true, Math.is_less_than_iff, Math.is_equal_iff,
    Math.is_greater_than_iff, not_and_or, not_lt]
  have hp : x1 - x2 ≠ eps := by
    intro h
    apply hedge
    rw [h, abs_of_nonneg heps]
  have hn : x1 - x2 ≠ -eps := by
    intro h
    apply hedge
    rw [h, abs_neg, abs_of_nonneg heps]
  rcases lt_trichotomy (x1 - x2) (-eps) with h1 | h1 | h1
  · left
    exact ⟨h1, Or.inl h1.le, by linarith⟩
  · exact absurd h1 hn
  · rcases lt_trichotomy (x1 - x2) eps with h2 | h2 | h2
    · right
      left
      exact ⟨h1.le, ⟨h1, h2⟩, h2.le⟩
    · exact absurd h2 hp
    · right
      right
      exact ⟨h1.le, Or.inr h2.le, h2⟩

/-- On the edge of the band, `|x1 - x2| = eps`, none of the three tests holds. -/
theorem Math.none_on_band_edge {T : Type} [LinearOrderedCommRing T]
    (x1 x2 eps : T) (hedge : |x1 - x2| = eps) :
    Math.is_less_than x1 x2 eps = false ∧ Math.is_equal x1 x2 eps = false ∧
      Math.is_greater_than x1 x2 eps = false := by
  have hlo : -eps ≤ x1 - x2 := by
    have h := neg_abs_le (x1 - x2)
    rw [hedge] at h
    exact h
  have hhi : x1 - x2 ≤ eps := by
    have h := le_abs_self (x1 - x2)
    rw [hedge] at h
    exact h
  refine ⟨?_, ?_, ?_⟩
  · rw [← Bool.not_eq_true, Math.is_less_than_iff]
    exact not_lt.mpr hlo
  · rw [← Bool.not_eq_true]
    unfold Math.is_equal
    rw [decide_eq_true_eq, hedge]
    exact lt_irrefl eps
  · rw [← Bool.not_eq_true, Math.is_greater_than_iff]
    exact not_lt.mpr hhi

/-- C6 (amended): over exact arithmetic, for all `x1`, `x2` and `eps`, exactly one of
`is_less_than(x1, x2, eps)`, `is_equal(x1, x2, eps)` and `is_greater_than(x1, x2, eps)`
holds if and only if either `eps >= 0` and `|x1 - x2| ≠ eps`, or `eps < 0` and
`|x1 - x2| >= -eps`. -/
theorem Math.exactly_one_iff_off_band_edge {T : Type} [LinearOrderedCommRing T]
    (x1 x2 eps : T) :
    ((Math.is_less_than x1 x2 eps = true ∧ Math.is_equal x1 x2 eps = false ∧
        Math.is_greater_than x1 x2 eps = false) ∨
      (Math.is_less_than x1 x2 eps = false ∧ Math.is_equal x1 x2 eps = true ∧
        Math.is_greater_than x1 x2 eps = false) ∨
      (Math.is_less_than x1 x2 eps = false ∧ Math.is_equal x1 x2 eps = false ∧
        Math.is_greater_than x1 x2 eps = true)) ↔
    ((0 ≤ eps ∧ |x1 - x2| ≠ eps) ∨ (eps < 0 ∧ -eps ≤ |x1 - x2|)) := by
  rcases le_or_lt 0 eps with heps | heps
  · constructor
    · intro hone
      refine Or.inl ⟨heps, ?_⟩
      intro hedge
      obtain ⟨hl, he, hg⟩ := Math.none_on_band_edge x1 x2 eps hedge
      rw [hl, he, hg] at hone
      simp at hone
    · rintro (⟨-, hedge⟩ | ⟨hneg, -⟩)
      · exact Math.exactly_one_of_nonneg_off_edge x1 x2 eps heps hedge
      · exact absurd heps (not_le.mpr hneg)
  · have he : Math.is_equal x1 x2 eps = false := by
      rw [← Bool.not_eq_true, Math.is_equal_iff]
      rintro ⟨h1, h2⟩
      linarith
    rw [he]
    simp only [← Bool.not_eq_true, Math.is_less_than_iff, Math.is_greater_than_iff, not_lt]
    constructor
    · rintro (⟨hl, -, hg⟩ | ⟨-, hf, -⟩ | ⟨hl, -, hg⟩)
      · refine Or.inr ⟨heps, ?_⟩
        have h := neg_le_abs (x1 - x2)
        linarith
      · exact absurd hf (by simp)
      · refine Or.inr ⟨heps, ?_⟩
        have h := le_abs_self (x1 - x2)
        linarith
    · rintro (⟨h0, -⟩ | ⟨-, habs⟩)
      · exact absurd h0 (not_le.mpr heps)
      · rcases le_abs.mp habs with h | h
        · right
          right
          exact ⟨h, by simp, by linarith⟩
        · left
          exact ⟨by linarith, by simp, by linarith⟩

/-- C7 (as stated, refuted): with the tolerance `eps = 0`, which is non-negative,
`is_equal(0, 0, 0)` is false, because the comparison `|x1 - x2| < eps` is strict. -/
theorem Math.is_equal_not_reflexive_at_zero_eps :
    (0 : ℚ) ≤ 0 ∧ Math.is_equal (0 : ℚ) 0 0 = false ∧
    ¬ (∀ x eps : ℚ, 0 ≤ eps → Math.is_equal x x eps = true) := by
  have h0 : Math.is_equal (0 : ℚ) 0 0 = false := by norm_num [Math.is_equal]
  refine ⟨le_rfl, h0, ?_⟩
  intro hall
  have h1 := hall 0 0 le_rfl
  rw [h0] at h1
  exact Bool.false_ne_true h1

/-- C7 (amended): `Math::is_equal` is reflexive for every positive tolerance: for every
`x` and every `eps > 0`, `is_equal(x, x, eps)` is true. -/
theorem Math.is_equal_refl_of_pos {T : Type} [LinearOrderedCommRing T]
    (x eps : T) (heps : 0 < eps) : Math.is_equal x x eps = true := by
  rw [Math.is_equal_iff, sub_self]
  exact ⟨neg_lt_zero.mpr heps, heps⟩

/-- C7 (amended), at `x = 3` with the default tolerance `1 / 1000`. -/
theorem Math.is_equal_refl_of_pos_witness :
    (0 : ℚ) < 1 / 1000 ∧ Math.is_equal (3 : ℚ) 3 (1 / 1000) = true :=
  ⟨by norm_num, Math.is_equal_refl_of_pos (3 : ℚ) (1 / 1000) (by norm_num)⟩

/-- C8: for all `x1`, `x2` and `eps` with `|x1 - x2| <= eps`, `is_greater_than(x1, x2, eps)`
and `is_less_than(x1, x2, eps)` are not both true; indeed neither is true. -/
theorem Math.not_greater_not_less_within_eps {T : Type} [LinearOrderedCommRing T]
    (x1 x2 eps : T) (hband : |x1 - x2| ≤ eps) :
    ¬ (Math.is_greater_than x1 x2 eps = true ∧ Math.is_less_than x1 x2 eps = true) ∧
    Math.is_greater_than x1 x2 eps = false ∧ Math.is_less_than x1 x2 eps = false := by
  obtain ⟨hlo, hhi⟩ := abs_le.mp hband
  have hg : Math.is_greater_than x1 x2 eps = false := by
    rw [← Bool.not_eq_true, Math.is_greater_than_iff]
    exact not_lt.mpr hhi
  have hl : Math.is_less_than x1 x2 eps = false := by
    rw [← Bool.not_eq_true, Math.is_less_than_iff]
    exact not_lt.mpr hlo
  refine ⟨?_, hg, hl⟩
  rintro ⟨h, -⟩
  rw [hg] at h
  exact Bool.false_ne_true h

/-- C8, at `x1 = 1`, `x2 = 0`, `eps = 1`, a pair exactly `eps` apart. -/
theorem Math.not_greater_not_less_within_eps_witness :
    |(1 : ℚ) - 0| ≤ 1 ∧
    ¬ (Math.is_greater_than (1 : ℚ) 0 1 = true ∧ Math.is_less_than (1 : ℚ) 0 1 = true) ∧
    Math.is_greater_than (1 : ℚ) 0 1 = false ∧ Math.is_less_than (1 : ℚ) 0 1 = false :=
  ⟨by norm_num, Math.not_greater_not_less_within_eps (1 : ℚ) 0 1 (by norm_num)⟩

/-- C9: for all `x1`, `x2`, `eps`, `is_greater_than_or_equal` is the negation of
`is_less_than` and `is_less_than_or_equal` is the negation of `is_greater_than`; and
for every `eps >= 0` at least one of `is_greater_than_or_equal(x1, x2, eps)` and
`is_less_than_or_equal(x1, x2, eps)` is true. -/
theorem Math.or_equal_negates_strict_and_total {T : Type} [LinearOrderedCommRing T]
    (x1 x2 eps : T) :
    Math.is_greater_than_or_equal x1 x2 eps = !Math.is_less_than x1 x2 eps ∧
    Math.is_less_than_or_equal x1 x2 eps = !Math.is_greater_than x1 x2 eps ∧
    (0 ≤ eps → Math.is_greater_than_or_equal x1 x2 eps = true ∨
      Math.is_less_than_or_equal x1 x2 eps = true) := by
  refine ⟨rfl, rfl, ?_⟩
  intro heps
  simp only [Math.is_greater_than_or_equal, Math.is_less_than_or_equal, Bool.not_eq_true',
    ← Bool.not_eq_true, Math.is_less_than_iff, Math.is_greater_than_iff, not_lt]
  rcases le_total (x1 - x2) eps with h | h
  · exact Or.inr h
  · exact Or.inl (by linarith)

/-- C9, at `x1 = 3`, `x2 = 1`, `eps = 1 / 2`: "greater or equal" holds, "less or equal"
does not. -/
theorem Math.or_equal_negates_strict_and_total_witness :
    (0 : ℚ) ≤ 1 / 2 ∧
    Math.is_greater_than_or_equal (3 : ℚ) 1 (1 / 2) = true ∧
    Math.is_less_than_or_equal (3 : ℚ) 1 (1 / 2) = false ∧
    (Math.is_greater_than_or_equal (3 : ℚ) 1 (1 / 2) = true ∨
      Math.is_less_than_or_equal (3 : ℚ) 1 (1 / 2) = true) :=
  ⟨by norm_num,
    by norm_num [Math.is_greater_than_or_equal, Math.is_less_than],
    by norm_num [Math.is_less_than_or_equal, Math.is_greater_than],
    (Math.or_equal_negates_strict_and_total (3 : ℚ) 1 (1 / 2)).2.2 (by norm_num)⟩

/-- C10: for every `v` and every `eps >= 0`, exactly one of `is_zero(v, eps)`,
`is_positive(v, eps)` and `is_negative(v, eps)` is true; `is_zero` is true exactly on
the closed band `|v| <= eps`, `is_positive` exactly for `v > eps` and `is_negative`
exactly for `v < -eps`. -/
theorem Math.sign_tests_classify {T : Type} [LinearOrderedCommRing T]
    (v eps : T) (heps : 0 ≤ eps) :
    ((Math.is_zero v eps = true ∧ Math.is_positive v eps = false ∧
        Math.is_negative v eps = false) ∨
      (Math.is_zero v eps = false ∧ Math.is_positive v eps = true ∧
        Math.is_negative v eps = false) ∨
      (Math.is_zero v eps = false ∧ Math.is_positive v eps = false ∧
        Math.is_negative v eps = true)) ∧
    (Math.is_zero v eps = true ↔ |v| ≤ eps) ∧
    (Math.is_positive v eps = true ↔ eps < v) ∧
    (Math.is_negative v eps = true ↔ v < -eps) := by
  refine ⟨?_, by simp [Math.is_zero], by simp [Math.is_positive], by simp [Math.is_negative]⟩
  simp only [← Bool.not_eq_true, Math.is_zero, Math.is_positive, Math.is_negative,
    decide_eq_true_eq, abs_le, not_and_or, not_le, not_lt, gt_iff_lt]
  rcases lt_or_le v (-eps) with h1 | h1
  · right
    right
    exact ⟨Or.inl h1, by linarith, h1⟩
  · rcases lt_or_le eps v with h2 | h2
    · right
      left
      exact ⟨Or.inr h2, h2, h1⟩
    · left
      exact ⟨⟨h1, h2⟩, h2, h1⟩

/-- C10, at `v = -2`, `eps = 1`: only `is_negative` is true. -/
theorem Math.sign_tests_classify_witness :
    (0 : ℚ) ≤ 1 ∧ Math.is_negative (-2 : ℚ) 1 = true ∧
    (((Math.is_zero (-2 : ℚ) 1 = true ∧ Math.is_positive (-2 : ℚ) 1 = false ∧
        Math.is_negative (-2 : ℚ) 1 = false) ∨
      (Math.is_zero (-2 : ℚ) 1 = false ∧ Math.is_positive (-2 : ℚ) 1 = true ∧
        Math.is_negative (-2 : ℚ) 1 = false) ∨
      (Math.is_zero (-2 : ℚ) 1 = false ∧ Math.is_positive (-2 : ℚ) 1 = false ∧
        Math.is_negative (-2 : ℚ) 1 = true)) ∧
    (Math.is_zero (-2 : ℚ) 1 = true ↔ |(-2 : ℚ)| ≤ 1) ∧
    (Math.is_positive (-2 : ℚ) 1 = true ↔ (1 : ℚ) < -2) ∧
    (Math.is_negative (-2 : ℚ) 1 = true ↔ (-2 : ℚ) < -1)) :=
  ⟨by norm_num, by norm_num [Math.is_negative],
    Math.sign_tests_classify (-2 : ℚ) 1 (by norm_num)⟩

/-! ## Vectors: basic facts -/

/-- The 2D tolerance test is the conjunction of the two component tests. -/
theorem VectorBase2.is_equal2_eq_true_iff {T : Type} [LinearOrderedCommRing T]
    (a b : VectorBase2 T) (eps : T) :
    a.is_equal b eps = true ↔ |a.v0 - b.v0| < eps ∧ |a.v1 - b.v1| < eps := by
  simp [VectorBase2.is_equal, Math.is_equal]

/-- The 3D tolerance test as written: components 0 and 2 are compared with `eps`,
component 1 with the tolerance `1`. -/
theorem VectorBase3.is_equal3_eq_true_iff {T : Type} [LinearOrderedCommRing T]
    (a b : VectorBase3 T) (eps : T) :
    a.is_equal b eps = true ↔
      |a.v0 - b.v0| < eps ∧ |a.v2 - b.v2| < eps ∧ |a.v1 - b.v1| < 1 := by
  unfold VectorBase3.is_equal
  by_cases hc : (decide (eps ≠ 0) && Math.is_equal a.v2 b.v2 eps) = true
  · rw [if_pos hc]
    simp only [Bool.and_eq_true, decide_eq_true_eq, Math.is_equal] at hc ⊢
    tauto
  · rw [if_neg hc]
    simp only [Bool.and_eq_true, decide_eq_true_eq, Math.is_equal, not_and_or, not_not] at hc ⊢
    constructor
    · rintro ⟨-, h1⟩
      exact absurd h1 (not_lt.mpr (abs_nonneg _))
    · rintro ⟨h0, h2, -⟩
      rcases hc with hz | hn
      · rw [hz] at h0
        exact absurd h0 (not_lt.mpr (abs_nonneg _))
      · exact absurd h2 hn

/-- The 4D tolerance test as written: components 0, 2 and 3 are compared with `eps`,
component 1 with the tolerance `1`. -/
theorem VectorBase4.is_equal4_eq_true_iff {T : Type} [LinearOrderedCommRing T]
    (a b : VectorBase4 T) (eps : T) :
    a.is_equal b eps = true ↔
      |a.v0 - b.v0| < eps ∧ |a.v2 - b.v2| < eps ∧ |a.v3 - b.v3| < eps ∧
        |a.v1 - b.v1| < 1 := by
  unfold VectorBase4.is_equal
  by_cases hc : (decide (eps ≠ 0) && Math.is_equal a.v2 b.v2 eps
      && Math.is_equal a.v3 b.v3 eps) = true
  · rw [if_pos hc]
    simp only [Bool.and_eq_true, decide_eq_true_eq, Math.is_equal] at hc ⊢
    tauto
  · rw [if_neg hc]
    simp only [Bool.and_eq_true, decide_eq_true_eq, Math.is_equal, not_and_or, not_not] at hc ⊢
    constructor
    · rintro ⟨-, h1⟩
      exact absurd h1 (not_lt.mpr (abs_nonneg _))
    · rintro ⟨h0, h2, h3, -⟩
      rcases hc with (hz | hn) | hn
      · rw [hz] at h0
        exact absurd h0 (not_lt.mpr (abs_nonneg _))
      · exact absurd h2 hn
      · exact absurd h3 hn

/-! ## Claims about the vectors -/

/-- C11 (the code departs from the claim): the 2D `is_equal` is the component-wise
tolerance test, but the 3D and 4D ones are not.  `(0,0,0).is_equal((0,0.5,0), 0.001)`
and `(0,0,0,0).is_equal((0,0.5,0,0), 0.001)` are true although
`Math::is_equal(0, 0.5, 0.001)` is false for the second component; and
`(0,0,0).is_equal((0,1.5,0), 2)` is false although every component differs by less
than `2`. -/
theorem VectorBase3.is_equal_not_component_wise :
    (∀ (T : Type) [LinearOrderedCommRing T] (a b : VectorBase2 T) (eps : T),
      a.is_equal b eps = true ↔
        Math.is_equal a.v0 b.v0 eps = true ∧ Math.is_equal a.v1 b.v1 eps = true) ∧
    (VectorBase3.is_equal (⟨0, 0, 0⟩ : VectorBase3 ℚ) ⟨0, 1 / 2, 0⟩ (1 / 1000) = true ∧
      Math.is_equal (0 : ℚ) (1 / 2) (1 / 1000) = false) ∧
    (VectorBase4.is_equal (⟨0, 0, 0, 0⟩ : VectorBase4 ℚ) ⟨0, 1 / 2, 0, 0⟩ (1 / 1000) = true ∧
      Math.is_equal (0 : ℚ) (1 / 2) (1 / 1000) = false) ∧
    (VectorBase3.is_equal (⟨0, 0, 0⟩ : VectorBase3 ℚ) ⟨0, 3 / 2, 0⟩ 2 = false ∧
      Math.is_equal (0 : ℚ) 0 2 = true ∧ Math.is_equal (0 : ℚ) (3 / 2) 2 = true) := by
  refine ⟨?_, ⟨?_, ?_⟩, ⟨?_, ?_⟩, ⟨?_, ?_, ?_⟩⟩
  · intro T _ a b eps
    simp [VectorBase2.is_equal]
  · rw [VectorBase3.is_equal3_eq_true_iff]
    norm_num [abs_lt]
  · norm_num [Math.is_equal, abs_lt]
  · rw [VectorBase4.is_equal4_eq_true_iff]
    norm_num [abs_lt]
  · norm_num [Math.is_equal, abs_lt]
  · rw [← Bool.not_eq_true, VectorBase3.is_equal3_eq_true_iff]
    norm_num [abs_lt]
  · norm_num [Math.is_equal]
  · norm_num [Math.is_equal, abs_lt]

/-- C12 (as stated, refuted): in the 3D `is_equal` the third component does get the
tolerance `eps`: there are no `a`, `b` and `eps > 0` with `|a[2] - b[2]| >= eps` for
which `a.is_equal(b, eps)` is true. -/
theorem VectorBase3.no_third_component_escape :
    ¬ ∃ (a b : VectorBase3 ℚ) (eps : ℚ),
        0 < eps ∧ eps ≤ |a.v2 - b.v2| ∧ a.is_equal b eps = true := by
  rintro ⟨a, b, eps, -, hge, heq⟩
  rw [VectorBase3.is_equal3_eq_true_iff] at heq
  exact absurd heq.2.1 (not_lt.mpr hge)

/-- C12 (amended): in the 3D `is_equal` the first and the third component get the
tolerance `eps` and the second does not: for all `a`, `b`, `eps`, `a.is_equal(b, eps)`
being true implies `|a[0] - b[0]| < eps` and `|a[2] - b[2]| < eps`; while for the second
component there exist `a`, `b` and `eps > 0` with `|a[1] - b[1]| >= eps` for which
`a.is_equal(b, eps)` is nevertheless true. -/
theorem VectorBase3.is_equal_first_and_third_within_eps {T : Type}
    [LinearOrderedCommRing T] (a b : VectorBase3 T) (eps : T) :
    (a.is_equal b eps = true → |a.v0 - b.v0| < eps ∧ |a.v2 - b.v2| < eps) ∧
    ∃ (c d : VectorBase3 ℚ) (tol : ℚ),
      0 < tol ∧ tol ≤ |c.v1 - d.v1| ∧ c.is_equal d tol = true := by
  constructor
  · intro h
    rw [VectorBase3.is_equal3_eq_true_iff] at h
    exact ⟨h.1, h.2.1⟩
  · refine ⟨⟨0, 0, 0⟩, ⟨0, 1 / 2, 0⟩, 1 / 1000, by norm_num, ?_, ?_⟩
    · rw [le_abs]
      right
      norm_num
    · rw [VectorBase3.is_equal3_eq_true_iff]
      norm_num [abs_lt]

/-- C12 (amended), at `a = (0,0,0)`, `b = (0,0.5,0)`, `eps = 0.001`: the test is true and
the first and third components are within `eps`. -/
theorem VectorBase3.is_equal_first_and_third_within_eps_witness :
    VectorBase3.is_equal (⟨0, 0, 0⟩ : VectorBase3 ℚ) ⟨0, 1 / 2, 0⟩ (1 / 1000) = true ∧
    |(0 : ℚ) - 0| < 1 / 1000 ∧ |(0 : ℚ) - 0| < 1 / 1000 := by
  have hrun : VectorBase3.is_equal (⟨0, 0, 0⟩ : VectorBase3 ℚ) ⟨0, 1 / 2, 0⟩ (1 / 1000)
      = true := by
    rw [VectorBase3.is_equal3_eq_true_iff]
    norm_num [abs_lt]
  exact ⟨hrun, (VectorBase3.is_equal_first_and_third_within_eps
    (⟨0, 0, 0⟩ : VectorBase3 ℚ) ⟨0, 1 / 2, 0⟩ (1 / 1000)).1 hrun⟩

/-- C13: for `N = 2`, `3` and `4` and every vector `v`, `v + (-v)` is equal under
`operator==` (exact, no tolerance) to the zero vector of the same dimension. -/
theorem VectorBase.add_neg_self_eq_zero {T : Type} [LinearOrderedCommRing T]
    (u : VectorBase2 T) (v : VectorBase3 T) (w : VectorBase4 T) :
    VectorBase2.op_eq (VectorBase2.op_add u (VectorBase2.op_neg u)) ⟨0, 0⟩ = true ∧
    VectorBase3.op_eq (VectorBase3.op_add v (VectorBase3.op_neg v)) ⟨0, 0, 0⟩ = true ∧
    VectorBase4.op_eq (VectorBase4.op_add w (VectorBase4.op_neg w)) ⟨0, 0, 0, 0⟩ = true := by
  refine ⟨?_, ?_, ?_⟩
  · simp [VectorBase2.op_eq, VectorBase2.op_add, VectorBase2.op_neg]
  · simp [VectorBase3.op_eq, VectorBase3.op_add, VectorBase3.op_neg]
  · simp [VectorBase4.op_eq, VectorBase4.op_add, VectorBase4.op_neg]

/-- C14: over exact arithmetic, for `N = 2`, `3` and `4`, every vector `v` and every
scalar `f ≠ 0`, `(v * f) / f` has the same components as `v`, and
`((v * f) / f).is_equal(v, eps)` is true for the default tolerance `0.001` and for every
`eps > 0`, with the `is_equal` of that dimension. -/
theorem VectorBase.mul_div_round_trip {T : Type} [LinearOrderedField T]
    (u : VectorBase2 T) (v : VectorBase3 T) (w : VectorBase4 T) (f eps : T)
    (hf : f ≠ 0) (heps : 0 < eps) :
    (VectorBase2.op_div (VectorBase2.op_mul u f) f = u ∧
      VectorBase3.op_div (VectorBase3.op_mul v f) f = v ∧
      VectorBase4.op_div (VectorBase4.op_mul w f) f = w) ∧
    (VectorBase2.is_equal (VectorBase2.op_div (VectorBase2.op_mul u f) f) u eps = true ∧
      VectorBase3.is_equal (VectorBase3.op_div (VectorBase3.op_mul v f) f) v eps = true ∧
      VectorBase4.is_equal (VectorBase4.op_div (VectorBase4.op_mul w f) f) w eps = true) ∧
    (VectorBase2.is_equal (VectorBase2.op_div (VectorBase2.op_mul u f) f) u (1 / 1000) = true ∧
      VectorBase3.is_equal (VectorBase3.op_div (VectorBase3.op_mul v f) f) v (1 / 1000) = true ∧
      VectorBase4.is_equal (VectorBase4.op_div (VectorBase4.op_mul w f) f) w (1 / 1000)
        = true) := by
  have h2 : VectorBase2.op_div (VectorBase2.op_mul u f) f = u := by
    cases u
    simp [VectorBase2.op_div, VectorBase2.op_mul, mul_div_assoc, div_self hf]
  have h3 : VectorBase3.op_div (VectorBase3.op_mul v f) f = v := by
    cases v
    simp [VectorBase3.op_div, VectorBase3.op_mul, mul_div_assoc, div_self hf]
  have h4 : VectorBase4.op_div (VectorBase4.op_mul w f) f = w := by
    cases w
    simp [VectorBase4.op_div, VectorBase4.op_mul, mul_div_assoc, div_self hf]
  have hself2 : ∀ tol : T, 0 < tol → VectorBase2.is_equal u u tol = true := by
    intro tol htol
    rw [VectorBase2.is_equal2_eq_true_iff]
    simp [htol]
  have hself3 : ∀ tol : T, 0 < tol → VectorBase3.is_equal v v tol = true := by
    intro tol htol
    rw [VectorBase3.is_equal3_eq_true_iff]
    simp [htol]
  have hself4 : ∀ tol : T, 0 < tol → VectorBase4.is_equal w w tol = true := by
    intro tol htol
    rw [VectorBase4.is_equal4_eq_true_iff]
    simp [htol]
  have hdef : (0 : T) < 1 / 1000 := by norm_num
  rw [h2, h3, h4]
  exact ⟨⟨rfl, rfl, rfl⟩, ⟨hself2 eps heps, hself3 eps heps, hself4 eps heps⟩,
    ⟨hself2 _ hdef, hself3 _ hdef, hself4 _ hdef⟩⟩

/-- C14, at `(1,2)`, `(1,2,3)`, `(1,2,3,4)` with `f = 3` and `eps = 1 / 2`. -/
theorem VectorBase.mul_div_round_trip_witness :
    (3 : ℚ) ≠ 0 ∧ (0 : ℚ) < 1 / 2 ∧
    VectorBase3.op_div (VectorBase3.op_mul (⟨1, 2, 3⟩ : VectorBase3 ℚ) 3) 3 = ⟨1, 2, 3⟩ ∧
    VectorBase3.is_equal (VectorBase3.op_div (VectorBase3.op_mul (⟨1, 2, 3⟩ : VectorBase3 ℚ) 3) 3)
      ⟨1, 2, 3⟩ (1 / 2) = true ∧
    VectorBase4.is_equal
      (VectorBase4.op_div (VectorBase4.op_mul (⟨1, 2, 3, 4⟩ : VectorBase4 ℚ) 3) 3)
      ⟨1, 2, 3, 4⟩ (1 / 1000) = true := by
  have hall := VectorBase.mul_div_round_trip (⟨1, 2⟩ : VectorBase2 ℚ) (⟨1, 2, 3⟩ : VectorBase3 ℚ)
    (⟨1, 2, 3, 4⟩ : VectorBase4 ℚ) 3 (1 / 2) (by norm_num) (by norm_num)
  exact ⟨by norm_num, by norm_num, hall.1.2.1, hall.2.1.2.1, hall.2.2.2.2⟩

/-- C18: the 3D and 4D `is_equal` as written.  For all 3D vectors `a`, `b` and every
`eps`, `a.is_equal(b, eps)` is true exactly when `|a[0]-b[0]| < eps`, `|a[2]-b[2]| < eps`
and `|a[1]-b[1]| < 1`; for all 4D vectors exactly when `|a[0]-b[0]| < eps`,
`|a[2]-b[2]| < eps`, `|a[3]-b[3]| < eps` and `|a[1]-b[1]| < 1`; and
`(0,0,0).is_equal((0,0.5,0), 0.001)` is true. -/
theorem VectorBase.is_equal_as_written :
    (∀ (T : Type) [LinearOrderedCommRing T] (a b : VectorBase3 T) (eps : T),
      a.is_equal b eps = true ↔
        |a.v0 - b.v0| < eps ∧ |a.v2 - b.v2| < eps ∧ |a.v1 - b.v1| < 1) ∧
    (∀ (T : Type) [LinearOrderedCommRing T] (a b : VectorBase4 T) (eps : T),
      a.is_equal b eps = true ↔
        |a.v0 - b.v0| < eps ∧ |a.v2 - b.v2| < eps ∧ |a.v3 - b.v3| < eps ∧
          |a.v1 - b.v1| < 1) ∧
    VectorBase3.is_equal (⟨0, 0, 0⟩ : VectorBase3 ℚ) ⟨0, 1 / 2, 0⟩ (1 / 1000) = true := by
  refine ⟨?_, ?_, ?_⟩
  · intro T _ a b eps
    exact VectorBase3.is_equal3_eq_true_iff a b eps
  · intro T _ a b eps
    exact VectorBase4.is_equal4_eq_true_iff a b eps
  · rw [VectorBase3.is_equal3_eq_true_iff]
    norm_num [abs_lt]

/-! ## Further claims about `Rect<T>` -/

/-- C15 (the code departs from the claim): `to_string()` never yields the text
`((left,top),(right,bottom))`, because `top()` is added to the literal `","` and not
streamed.  `Rect<int>(1,0,3,4).to_string()` is `((1,),(4,4))` where the claim says
`((1,0),(4,4))`, `Rect<int>(1,1,3,4).to_string()` is `((1),(4,5))`, and for
`Rect<int>(1,2,3,4)`, the example of the claim, the read is outside the literal. -/
theorem Rect.to_string_never_prints_top :
    (∀ r : Rect ℤ, Rect.to_string r ≠ some (Rect.to_string_spec r)) ∧
    Rect.to_string (Rect.new 1 0 3 4) = some "((1,),(4,4))" ∧
    Rect.to_string_spec (Rect.new 1 0 3 4) = "((1,0),(4,4))" ∧
    Rect.to_string (Rect.new 1 1 3 4) = some "((1),(4,5))" ∧
    Rect.to_string (Rect.new 1 2 3 4) = none ∧
    Rect.to_string_spec (Rect.new 1 2 3 4) = "((1,2),(4,6))" := by
  refine ⟨?_, by decide, by decide, by decide, by decide, by decide⟩
  intro r h
  unfold Rect.to_string comma_plus at h
  by_cases h0 : r.top = 0
  · rw [if_pos h0] at h
    have hd := congrArg String.data (Option.some.inj h)
    simp only [Rect.to_string_spec, String.data_append, List.append_assoc, h0] at hd
    have h1 := List.append_cancel_left (List.append_cancel_left hd)
    simp at h1
    revert h1
    decide
  · rw [if_neg h0] at h
    by_cases h1 : r.top = 1
    · rw [if_pos h1] at h
      have hd := congrArg String.data (Option.some.inj h)
      simp only [Rect.to_string_spec, String.data_append, List.append_assoc, h1] at hd
      have h2 := List.append_cancel_left (List.append_cancel_left hd)
      simp at h2
    · rw [if_neg h1] at h
      exact Option.noConfusion h

/-- C19: for every pair of rectangles `a` and `b`, of any sizes,
`a.intersects(b) = b.intersects(a)`. -/
theorem Rect.intersects_rect_comm {T : Type} [LinearOrderedCommRing T] (a b : Rect T) :
    a.intersects_rect b = b.intersects_rect a := by
  rw [Bool.eq_iff_iff, Rect.intersects_rect, Rect.intersects_rect,
    Rect.intersects_eq_true_iff, Rect.intersects_eq_true_iff]
  tauto

/-- C20 (as stated, refuted): on `Rect<int>` with a 32-bit `int`,
`Rect(2147483647, 0, 1, 0)` has non-negative width `1` and height `0`, but its
`right()` is `2147483647 + 1`, which wraps to `-2147483648` and lies left of `left()`,
so the rectangle does not contain itself. -/
theorem Rect.contains_self_fails_when_right_wraps :
    Int32.ofInt 0 ≤
      (Rect.new (Int32.ofInt 2147483647) (Int32.ofInt 0) (Int32.ofInt 1) (Int32.ofInt 0)).w ∧
    Int32.ofInt 0 ≤
      (Rect.new (Int32.ofInt 2147483647) (Int32.ofInt 0) (Int32.ofInt 1) (Int32.ofInt 0)).h ∧
    (Rect.new (Int32.ofInt 2147483647) (Int32.ofInt 0) (Int32.ofInt 1)
      (Int32.ofInt 0)).right.val = -2147483648 ∧
    (Rect.new (Int32.ofInt 2147483647) (Int32.ofInt 0) (Int32.ofInt 1)
        (Int32.ofInt 0)).contains_rect
      (Rect.new (Int32.ofInt 2147483647) (Int32.ofInt 0) (Int32.ofInt 1) (Int32.ofInt 0))
      = false ∧
    ¬ ((Rect.new (Int32.ofInt 2147483647) (Int32.ofInt 0) (Int32.ofInt 1)
          (Int32.ofInt 0)).contains_rect
        (Rect.new (Int32.ofInt 2147483647) (Int32.ofInt 0) (Int32.ofInt 1) (Int32.ofInt 0))
        = true ↔
      Int32.ofInt 0 ≤
        (Rect.new (Int32.ofInt 2147483647) (Int32.ofInt 0) (Int32.ofInt 1) (Int32.ofInt 0)).w ∧
      Int32.ofInt 0 ≤
        (Rect.new (Int32.ofInt 2147483647) (Int32.ofInt 0) (Int32.ofInt 1)
          (Int32.ofInt 0)).h) := by
  refine ⟨by decide, by decide, by decide, by decide, by decide⟩

/-- C20 (amended): rectangle containment is transitive (if `a.contains(b)` and
`b.contains(c)` then `a.contains(c)`), and `a.contains(a)` is true exactly when
`a.left() <= a.right()` and `a.top() <= a.bottom()`, for every element type with its
own order and addition; over exact arithmetic that is exactly when `a` has
non-negative width and height. -/
theorem Rect.contains_rect_trans_and_self_iff_edges {T : Type} [LinearOrder T] [Add T]
    (a b c : Rect T) :
    (a.contains_rect b = true → b.contains_rect c = true → a.contains_rect c = true) ∧
    (a.contains_rect a = true ↔ a.left ≤ a.right ∧ a.top ≤ a.bottom) ∧
    (∀ (R : Type) [LinearOrderedCommRing R] (r : Rect R),
      r.contains_rect r = true ↔ 0 ≤ r.w ∧ 0 ≤ r.h) := by
  refine ⟨?_, ?_, ?_⟩
  · simp only [Rect.contains_rect, Bool.and_eq_true, Rect.contains_eq_true_iff]
    rintro ⟨⟨h1, -, h3, -⟩, ⟨-, h6, -, h8⟩⟩ ⟨⟨k1, k2, k3, k4⟩, ⟨k5, k6, k7, k8⟩⟩
    exact ⟨⟨h1.trans k1, k2.trans h6, h3.trans k3, k4.trans h8⟩,
      ⟨h1.trans k5, k6.trans h6, h3.trans k7, k8.trans h8⟩⟩
  · simp only [Rect.contains_rect, Bool.and_eq_true, Rect.contains_eq_true_iff, le_refl,
      true_and, and_true]
    tauto
  · intro R _ r
    simp only [Rect.contains_rect, Bool.and_eq_true, Rect.contains_eq_true_iff]
    simp only [Rect.left, Rect.right, Rect.top, Rect.bottom, le_refl, true_and, and_true,
      le_add_iff_nonneg_right]
    tauto

/-- C20 (amended), at `a = Rect(0,0,10,10)`, `b = Rect(1,1,5,5)`, `c = Rect(2,2,1,1)` over
the integers. -/
theorem Rect.contains_rect_trans_and_self_iff_edges_witness :
    (Rect.new (0 : ℤ) 0 10 10).contains_rect (Rect.new 1 1 5 5) = true ∧
    (Rect.new (1 : ℤ) 1 5 5).contains_rect (Rect.new 2 2 1 1) = true ∧
    (Rect.new (0 : ℤ) 0 10 10).contains_rect (Rect.new 2 2 1 1) = true ∧
    ((Rect.new (0 : ℤ) 0 10 10).contains_rect (Rect.new 0 0 10 10) = true ↔
      (Rect.new (0 : ℤ) 0 10 10).left ≤ (Rect.new (0 : ℤ) 0 10 10).right ∧
      (Rect.new (0 : ℤ) 0 10 10).top ≤ (Rect.new (0 : ℤ) 0 10 10).bottom) :=
  ⟨by decide, by decide,
    (Rect.contains_rect_trans_and_self_iff_edges (Rect.new (0 : ℤ) 0 10 10)
      (Rect.new 1 1 5 5) (Rect.new 2 2 1 1)).1 (by decide) (by decide),
    (Rect.contains_rect_trans_and_self_iff_edges (Rect.new (0 : ℤ) 0 10 10)
      (Rect.new 1 1 5 5) (Rect.new 2 2 1 1)).2.1⟩

/-! ## Decimal rendering of integers -/

/-- A key is found in front of the list that starts with its own entry. -/
theorem cache_find_cons_self {K V : Type} [DecidableEq K] (key : K) (v : V)
    (rest : List (K × V)) : cache_find key ((key, v) :: rest) = some v := by
  simp [cache_find]

namespace Resources

variable {Image Font Sound Music : Type}

/-- On a hit `GetImage` returns the cached handle and leaves everything as it is. -/
theorem GetImage_of_hit (L : Loader Image Font Sound Music)
    (r : Resources Image Font Sound Music) (f : String) (handle : Image)
    (hit : cache_find f r.images = some handle) : GetImage L r f = (handle, r) := by
  simp [GetImage, hit]

/-- On a miss `GetImage` loads, inserts and records the load. -/
theorem GetImage_of_miss (L : Loader Image Font Sound Music)
    (r : Resources Image Font Sound Music) (f : String)
    (miss : cache_find f r.images = none) :
    GetImage L r f = (L.load_image r.issued.length f,
      ⟨(f, L.load_image r.issued.length f) :: r.images, r.fonts, r.sounds, r.music,
        r.issued ++ [LoadCall.image f]⟩) := by
  simp [GetImage, miss]

end Resources

/-! ## Claims about the resource cache -/

/-- C16: starting from any cache state, two consecutive calls `GetImage(f)` return the
same handle, the second call loads nothing, and together they issue exactly one call
`load_image(f)` to the external loader if `f` was not cached and none if it was; after
`Unload()` the next `GetImage(f)` issues a load again, from the state reached by the two
calls and from any other state. -/
theorem Resources.GetImage_twice_loads_once {Image Font Sound Music : Type}
    (L : Loader Image Font Sound Music) (r other : Resources Image Font Sound Music)
    (f : String) :
    (Resources.GetImage L (Resources.GetImage L r f).2 f).1 = (Resources.GetImage L r f).1 ∧
    (Resources.GetImage L (Resources.GetImage L r f).2 f).2 = (Resources.GetImage L r f).2 ∧
    (Resources.GetImage L (Resources.GetImage L r f).2 f).2.issued
      = r.issued ++ (if (cache_find f r.images).isSome then [] else [LoadCall.image f]) ∧
    (Resources.GetImage L
        (Resources.Unload (Resources.GetImage L (Resources.GetImage L r f).2 f).2) f).2.issued
      = (Resources.GetImage L (Resources.GetImage L r f).2 f).2.issued
          ++ [LoadCall.image f] ∧
    (Resources.GetImage L (Resources.Unload other) f).2.issued
      = other.issued ++ [LoadCall.image f] := by
  have hun : ∀ s : Resources Image Font Sound Music,
      (Resources.GetImage L (Resources.Unload s) f).2.issued
        = s.issued ++ [LoadCall.image f] := by
    intro s
    rw [Resources.GetImage_of_miss L (Resources.Unload s) f rfl]
    rfl
  refine ⟨?_, ?_, ?_, hun _, hun _⟩
  · cases hfind : cache_find f r.images with
    | none =>
      rw [Resources.GetImage_of_miss L r f hfind]
      rw [Resources.GetImage_of_hit L _ f _ (cache_find_cons_self _ _ _)]
    | some handle =>
      rw [Resources.GetImage_of_hit L r f handle hfind,
        Resources.GetImage_of_hit L r f handle hfind]
  · cases hfind : cache_find f r.images with
    | none =>
      rw [Resources.GetImage_of_miss L r f hfind]
      rw [Resources.GetImage_of_hit L _ f _ (cache_find_cons_self _ _ _)]
    | some handle =>
      rw [Resources.GetImage_of_hit L r f handle hfind,
        Resources.GetImage_of_hit L r f handle hfind]
  · cases hfind : cache_find f r.images with
    | none =>
      rw [Resources.GetImage_of_miss L r f hfind]
      rw [Resources.GetImage_of_hit L _ f _ (cache_find_cons_self _ _ _)]
      simp
    | some handle =>
      rw [Resources.GetImage_of_hit L r f handle hfind,
        Resources.GetImage_of_hit L r f handle hfind]
      simp

end io
